import Mathlib

/-!
Verification of the SKPG graduate-employability dashboard
(`src/pages/dashboard.py`, `src/pages/fakulti.py`).

The tables manipulated by the dashboard are pandas data frames.  We embed a
(post-normalization) data frame as a list of rows whose fields are the columns
the metric engine reads; a missing cell (pandas `NaN`) is `none`.  Pandas
semantics that matter for the proofs and that the definitions below reproduce:

* a comparison `series == c` is `false` on a missing cell, while `series != c`
  is `true` on a missing cell;
* `series.count()` counts only the non-missing cells;
* `series.isin(vals)` is `false` on a missing cell;
* `series.notna().sum()` counts the non-missing cells;
* `(series == c).sum()` counts the cells equal to `c`.

Percentages are embedded as rationals; the dashboard's `round(x, 1)` is a
display-side final rounding (spec section 4.4) and is not modelled: all claims
under study are about the full-precision values fed to it.
-/

namespace SKPG

/-- One row of the unified, normalized table.  Raw numeric survey codes are
`Option Int` (or `Option ℚ` for the salary-group code, which the dashboard
passes through `pd.to_numeric`); derived label columns and string columns are
`Option String`.  `none` is a missing value. -/
structure Row where
  e_status : Option Int := none
  e_54 : Option Int := none
  e_status_label : Option String := none
  e_fakulti : Option String := none
  e_fakulti_label : Option String := none
  e_statusPenyertaan : Option Int := none
  e_peringkat_label : Option String := none
  e_program : Option String := none
  e_41_a : Option Int := none
  e_44_kumpulan : Option ℚ := none
  SKPG_Tahun : Option String := none
  deriving DecidableEq, Repr

/-- The fixed ordered list of 20 canonical faculty short codes that the
per-faculty metric functions iterate (`all_fakulti` in `dashboard.py`). -/
def all_fakulti : List String :=
  ["API", "APM", "FAB", "FBL", "FF", "FK", "EDU", "FOD", "FPE", "FOM",
   "FS", "FSKTM", "FSSS", "FSK", "FSSE", "FUU", "AEI", "IAS", "INPUMA", "UMCCED"]

/-! ## Graduate Employability (GE)

Embedding of the GE computation shared by `graduate_employability_ikut_ptj`
(dashboard.py lines 371-382), `graduate_employability` (fakulti.py lines
593-600), `ge_gm_keseluruhan`, `kategori_ge`, `fakulti_ge_tertinggi` and
`fakulti_ge_atas_overall`, which all repeat the same five lines. -/

/-- `bekerja = fak_df[fak_df["e_status_label"] == "Bekerja"]["e_status_label"].count()`:
the label of every row passing the mask is the non-missing string `"Bekerja"`,
so the final `.count()` equals the number of rows passing the mask. -/
def bekerja (t : List Row) : Nat :=
  t.countP (fun r => r.e_status_label == some "Bekerja")

/-- `tidak_bekerja = fak_df[fak_df["e_status_label"] == "Belum Bekerja"]["e_status_label"].count()`. -/
def tidak_bekerja (t : List Row) : Nat :=
  t.countP (fun r => r.e_status_label == some "Belum Bekerja")

/-- The boolean mask
`(df["e_status"] == 5) & (df["e_54"] != 5) & (df["e_54"] != 34)`.
In pandas, `NaN == 5` is false and `NaN != 5` is true, so a row with a missing
`e_54` passes the two inequality tests. -/
def luarMask (r : Row) : Bool :=
  r.e_status == some 5 && !(r.e_54 == some 5) && !(r.e_54 == some 34)

/-- `luar_tenaga_buruh = df[mask]["e_54"].count()`: rows passing `luarMask`,
counted by the non-missing entries of their `e_54` column. -/
def luar_tenaga_buruh (t : List Row) : Nat :=
  (t.filter luarMask).countP (fun r => r.e_54.isSome)

/-- `total_ge = bekerja + tidak_bekerja - luar_tenaga_buruh` — an int64
subtraction in pandas, so the value may be negative. -/
def total_ge (t : List Row) : Int :=
  (bekerja t : Int) + (tidak_bekerja t : Int) - (luar_tenaga_buruh t : Int)

/-- `percent_ge = (bekerja / total_ge * 100) if total_ge > 0 else 0`. -/
def percent_ge (t : List Row) : ℚ :=
  if 0 < total_ge t then (bekerja t : ℚ) / (total_ge t : ℚ) * 100 else 0

/-- Per-faculty GE as computed inside the loop of
`graduate_employability_ikut_ptj`: the GE formula applied to
`df[df["e_fakulti_label"] == fakulti]`. -/
def ge_of_fakulti (t : List Row) (fakulti : String) : ℚ :=
  percent_ge (t.filter (fun r => r.e_fakulti_label == some fakulti))

lemma luar_count_eq (t : List Row) :
    luar_tenaga_buruh t = t.countP (fun r =>
      r.e_status == some 5 &&
        (match r.e_54 with
         | some v => !(v == 5) && !(v == 34)
         | none => false)) := by
  unfold luar_tenaga_buruh
  rw [List.countP_filter]
  refine List.countP_congr (fun r _ => ?_)
  rcases r with ⟨st, e54, _, _, _, _, _, _, _, _, _⟩
  cases e54 <;> simp [luarMask, Bool.and_comm, Bool.and_assoc, Bool.and_left_comm]

/-- Claim C1: for every filtered table, the GE rate is
`bekerja / total_ge * 100` when `total_ge > 0` and exactly `0` otherwise,
where `bekerja` counts the rows labelled "Bekerja", `tidak_bekerja` the rows
labelled "Belum Bekerja", `luar_tenaga_buruh` the rows with work-status code 5
whose non-work-reason code is present and differs from both 5 and 34 (a row
with a missing `e_54` passes the pandas mask but is dropped by the final
`.count()`), and `total_ge = bekerja + tidak_bekerja - luar_tenaga_buruh`. -/
theorem claim_C1 (t : List Row) :
    percent_ge t =
      (if 0 < total_ge t then (bekerja t : ℚ) / (total_ge t : ℚ) * 100 else 0)
    ∧ total_ge t
        = (bekerja t : Int) + (tidak_bekerja t : Int) - (luar_tenaga_buruh t : Int)
    ∧ bekerja t = t.countP (fun r => r.e_status_label == some "Bekerja")
    ∧ tidak_bekerja t = t.countP (fun r => r.e_status_label == some "Belum Bekerja")
    ∧ luar_tenaga_buruh t = t.countP (fun r =>
        r.e_status == some 5 &&
          (match r.e_54 with
           | some v => !(v == 5) && !(v == 34)
           | none => false)) := by
  refine ⟨rfl, rfl, rfl, rfl, luar_count_eq t⟩

/-- Claim C9: the GE guard is `total_ge > 0`, so any table with a
non-positive (in particular negative) `total_ge` yields exactly 0; a negative
`total_ge` is reachable (a row with `e_status = 5`, a non-5/34 `e_54` and an
unmapped work-status label); and the GE percentage is never negative. -/
theorem claim_C9 :
    (∀ t : List Row, total_ge t < 0 → percent_ge t = 0)
    ∧ (∃ t : List Row, total_ge t < 0)
    ∧ (∀ t : List Row, 0 ≤ percent_ge t) := by
  refine ⟨?_, ⟨[{ e_status := some 5, e_54 := some 1 }], by decide⟩, ?_⟩
  · intro t h
    have : ¬ 0 < total_ge t := by omega
    simp [percent_ge, this]
  · intro t
    unfold percent_ge
    split
    · next h =>
      have hb : (0 : ℚ) ≤ (bekerja t : ℚ) := Nat.cast_nonneg _
      have ht : (0 : ℚ) < (total_ge t : ℚ) := by exact_mod_cast h
      have := div_nonneg hb ht.le
      nlinarith
    · exact le_refl 0

/-- Witness for claim C9 at a concrete one-row table whose `total_ge` is `-1`. -/
theorem claim_C9_witness :
    total_ge [{ e_status := some 5, e_54 := some 1 }] < 0
    ∧ percent_ge [{ e_status := some 5, e_54 := some 1 }] = 0 :=
  ⟨by decide, claim_C9.1 [{ e_status := some 5, e_54 := some 1 }] (by decide)⟩

/-! ## Response rate

`purata_kadar_respons` (dashboard.py lines 1196-1207) and the per-faculty
`kadar_respons_ikut_ptj` (dashboard.py lines 441-457). -/

/-- `total = df_filtered_year["e_statusPenyertaan"].notna().sum()` in
`purata_kadar_respons`. -/
def purata_total (t : List Row) : Nat :=
  t.countP (fun r => r.e_statusPenyertaan.isSome)

/-- `responded = (df_filtered_year["e_statusPenyertaan"] == 1).sum()` in
`purata_kadar_respons`. -/
def purata_responded (t : List Row) : Nat :=
  t.countP (fun r => r.e_statusPenyertaan == some 1)

/-- `purata_kadar_respons`:
`purata = responded / total * 100 if total > 0 else 0`. -/
def purata_kadar_respons (t : List Row) : ℚ :=
  if 0 < purata_total t then (purata_responded t : ℚ) / (purata_total t : ℚ) * 100 else 0

/-- `fak_df = df_filtered_year[df_filtered_year["e_fakulti_label"] == fakulti]`
in the loop of `kadar_respons_ikut_ptj`. -/
def fak_df (t : List Row) (fakulti : String) : List Row :=
  t.filter (fun r => r.e_fakulti_label == some fakulti)

/-- `total = fak_df[fak_df["e_statusPenyertaan"] != -2]["e_statusPenyertaan"].count()`:
a missing code passes the `!= -2` mask but is dropped by `.count()`. -/
def kadar_total (t : List Row) (fakulti : String) : Nat :=
  ((fak_df t fakulti).filter (fun r => !(r.e_statusPenyertaan == some (-2)))).countP
    (fun r => r.e_statusPenyertaan.isSome)

/-- `respon = fak_df[fak_df["e_statusPenyertaan"] == 1]["e_statusPenyertaan"].count()`. -/
def kadar_respon (t : List Row) (fakulti : String) : Nat :=
  ((fak_df t fakulti).filter (fun r => r.e_statusPenyertaan == some 1)).countP
    (fun r => r.e_statusPenyertaan.isSome)

/-- The per-faculty rate of `kadar_respons_ikut_ptj`:
`rate = (respon / total * 100) if total > 0 else 0`. -/
def kadar_respons_fak (t : List Row) (fakulti : String) : ℚ :=
  if 0 < kadar_total t fakulti
  then (kadar_respon t fakulti : ℚ) / (kadar_total t fakulti : ℚ) * 100 else 0

/-- `kadar_respons_ikut_ptj`: one record `(fakulti, rate)` per canonical
faculty code, in the fixed order (the `round(rate, 1)` applied for display is
not modelled). -/
def kadar_respons_ikut_ptj (t : List Row) : List (String × ℚ) :=
  all_fakulti.map (fun f => (f, kadar_respons_fak t f))

/-- Modelled from the spec (for the refinement comparison of claim C3): the
response rate as the spec words it, over a list of participation-status codes —
denominator the non-missing codes, numerator the codes equal to 1. -/
def responseRateSpec (codes : List (Option Int)) : ℚ :=
  if 0 < codes.countP (fun o => o.isSome)
  then (codes.countP (fun o => o == some 1) : ℚ)
        / (codes.countP (fun o => o.isSome) : ℚ) * 100
  else 0

/-- Two-row table separating the two denominators: one "API" row that
participated (code 1) and one "API" row with the non-missing code -2. -/
def tRespons : List Row :=
  [{ e_fakulti_label := some "API", e_statusPenyertaan := some 1 },
   { e_fakulti_label := some "API", e_statusPenyertaan := some (-2) }]

/-- Counterexample to claim C3: on `tRespons`, the per-faculty computation
`kadar_respons_ikut_ptj` reports 100% for faculty "API" (its denominator drops
the non-missing code -2), while the claimed formula — denominator = count of
non-missing participation-status codes — gives 50% on the same rows. -/
theorem claim_C3_counterexample :
    ("API", (100 : ℚ)) ∈ kadar_respons_ikut_ptj tRespons
    ∧ responseRateSpec
        ((tRespons.filter (fun r => r.e_fakulti_label == some "API")).map
          (fun r => r.e_statusPenyertaan)) = 50
    ∧ (100 : ℚ) ≠ 50 := by
  have htot : kadar_total tRespons "API" = 1 := by decide
  have hresp : kadar_respon tRespons "API" = 1 := by decide
  have h : kadar_respons_fak tRespons "API" = 100 := by
    rw [kadar_respons_fak, htot, hresp]; norm_num
  have hst : ((tRespons.filter (fun r => r.e_fakulti_label == some "API")).map
      (fun r => r.e_statusPenyertaan)).countP (fun o => o.isSome) = 2 := by decide
  have hsr : ((tRespons.filter (fun r => r.e_fakulti_label == some "API")).map
      (fun r => r.e_statusPenyertaan)).countP (fun o => o == some 1) = 1 := by decide
  refine ⟨?_, ?_, by norm_num⟩
  · exact List.mem_map.mpr ⟨"API", by decide, by rw [h]⟩
  · rw [responseRateSpec, hst, hsr]; norm_num

lemma resp_num_pred (o : Option Int) :
    (o.isSome && (o == some 1)) = ((o == some 1) && !(o == some (-2))) := by
  rcases o with _ | v
  · rfl
  · by_cases h : v = 1
    · subst h; decide
    · simp [h]

/-- Claim C3 as amended: the overall response rate `purata_kadar_respons` is
exactly the claimed formula (denominator = non-missing codes, numerator =
codes equal to 1, zero-guarded); the per-faculty rate of
`kadar_respons_ikut_ptj` is instead the claimed formula applied after also
discarding the non-missing code -2 from the faculty's code list. -/
theorem claim_C3_amended (t : List Row) :
    purata_kadar_respons t = responseRateSpec (t.map (fun r => r.e_statusPenyertaan))
    ∧ (∀ fakulti, kadar_respons_fak t fakulti
        = responseRateSpec
            (((t.filter (fun r => r.e_fakulti_label == some fakulti)).map
                (fun r => r.e_statusPenyertaan)).filter
              (fun o => !(o == some (-2)))))
    ∧ kadar_respons_ikut_ptj t = all_fakulti.map (fun f => (f, kadar_respons_fak t f)) := by
  refine ⟨?_, ?_, rfl⟩
  · rw [purata_kadar_respons, responseRateSpec, purata_total, purata_responded,
      List.countP_map, List.countP_map]
    rfl
  · intro fakulti
    have htot : kadar_total t fakulti
        = (((t.filter (fun r => r.e_fakulti_label == some fakulti)).map
              (fun r => r.e_statusPenyertaan)).filter
            (fun o => !(o == some (-2)))).countP (fun o => o.isSome) := by
      rw [kadar_total, fak_df]
      simp [List.countP_filter, List.countP_map, Function.comp_def, Bool.and_assoc]
    have hnum : kadar_respon t fakulti
        = (((t.filter (fun r => r.e_fakulti_label == some fakulti)).map
              (fun r => r.e_statusPenyertaan)).filter
            (fun o => !(o == some (-2)))).countP (fun o => o == some 1) := by
      rw [kadar_respon, fak_df]
      simp only [List.countP_filter, List.countP_map, Function.comp_def]
      refine List.countP_congr (fun r _ => ?_)
      rw [resp_num_pred r.e_statusPenyertaan]
    rw [kadar_respons_fak, responseRateSpec, htot, hnum]

/-! ## Salary banding

The four donut functions of dashboard.py (`gaji_ikut_kumpulan_donut_phd` and
its Sarjana/Sarjana Muda/Diploma twins, lines 845-1067) bin the numeric
salary-group code with `pd.cut(bins=[0, 4, 7, 8, inf], right=True)` after the
mask `~isna & (code != -2)`; `gaji_ikut_kumpulan` in fakulti.py (lines
869-913) bins the same code with its local `group_gaji` and then reindexes the
value counts onto the same four category labels. -/

/-- The four salary bands, in the order of the `labels` lists. -/
inductive Band
  | b1
  | b2
  | b3
  | b4
  deriving DecidableEq, Repr

/-- The display label of each band (the `labels` list of the donut functions,
equal to the `categories` list of `gaji_ikut_kumpulan`). -/
def bandLabel : Band → String
  | .b1 => "RM2,000 dan kebawah"
  | .b2 => "RM2,001 - RM3,000"
  | .b3 => "RM3,001 - RM4,000"
  | .b4 => "RM4,001 dan keatas"

/-- `pd.cut(x, bins=[0, 4, 7, 8, np.inf], right=True)`: right-inclusive
intervals `(0,4]`, `(4,7]`, `(7,8]`, `(8,inf)`; a value outside every interval
(in particular any `x ≤ 0`) gets no band (pandas `NaN`). -/
def pdCutBand (x : ℚ) : Option Band :=
  if 0 < x ∧ x ≤ 4 then some .b1
  else if 4 < x ∧ x ≤ 7 then some .b2
  else if 7 < x ∧ x ≤ 8 then some .b3
  else if 8 < x then some .b4
  else none

/-- The code list the donut functions bin:
`donut_df = df[df["e_peringkat_label"] == peringkat]`,
`kumpulan_gaji = pd.to_numeric(donut_df["e_44_kumpulan"], errors='coerce')`
(the embedded column is already numeric-or-missing), then
`mask_valid = ~kumpulan_gaji.isna() & (kumpulan_gaji != -2)`. -/
def donut_codes (t : List Row) (peringkat : String) : List ℚ :=
  ((t.filter (fun r => r.e_peringkat_label == some peringkat)).filterMap
      (fun r => r.e_44_kumpulan)).filter (fun x => !(x == -2))

/-- `gaji_bins.value_counts().reindex(labels, fill_value=0)` of the donut
functions: the number of valid codes falling in band `b`. -/
def donut_count (t : List Row) (peringkat : String) (b : Band) : Nat :=
  (donut_codes t peringkat).countP (fun x => pdCutBand x == some b)

/-- `gaji_ikut_kumpulan_donut_phd`: the PhD instance of the donut pipeline. -/
def gaji_ikut_kumpulan_donut_phd (t : List Row) (b : Band) : Nat :=
  donut_count t "PhD" b

/-- `group_gaji` inside `gaji_ikut_kumpulan` (fakulti.py lines 874-884),
applied by `Series.apply` to every cell of `e_44_kumpulan` with no validity
mask: every comparison with a missing value (`NaN`) is false, so a missing
cell falls through to the `else` branch `"meow"`, as does `-2`, any
non-positive code, and the unused codes 9 and 10. -/
def group_gaji (x : Option ℚ) : String :=
  match x with
  | some v =>
    if 0 < v ∧ v ≤ 4 then bandLabel .b1
    else if 5 ≤ v ∧ v ≤ 7 then bandLabel .b2
    else if v = 8 then bandLabel .b3
    else if 11 ≤ v then bandLabel .b4
    else "meow"
  | none => "meow"

/-- `gaji_bins.value_counts().reindex(categories, fill_value=0)` in
`gaji_ikut_kumpulan`: the count of one of the four reindexed categories
(`"meow"` is not a category, so those rows vanish here). -/
def gaji_ikut_kumpulan_count (t : List Row) (c : String) : Nat :=
  (t.map (fun r => group_gaji r.e_44_kumpulan)).countP (fun s => s == c)

/-- The non-sentinel keys of the `gaji_kumpulan` lookup table — the valid
salary-group code domain (its key `-2` is the "Tidak Berkaitan" sentinel). -/
def validSalaryCodes : List ℚ := [1, 2, 4, 5, 6, 7, 8, 11, 12, 13, 14, 15, 16]

lemma countP_filterMap_matchNone {α β : Type} (f : α → Option β) (p : β → Bool)
    (l : List α) :
    (l.filterMap f).countP p
      = l.countP (fun a => match f a with | some b => p b | none => false) := by
  induction l with
  | nil => rfl
  | cons a l ih =>
    cases h : f a <;> simp [List.filterMap_cons, h, List.countP_cons, ih]

lemma meow_ne_bandLabel (b : Band) : ("meow" == bandLabel b) = false := by
  cases b <;> decide

/-- Claim C2: every valid salary-group code (a non-sentinel key of the
`gaji_kumpulan` lookup table) is claimed by exactly one of the four bands,
with right-inclusive edges — band 1 for codes in `[0,4]`, band 2 for `(4,7]`,
band 3 for `(7,8]`, band 4 for `(8,∞)` — and the fakulti-page `group_gaji`
banding agrees with the dashboard `pd.cut` banding on every valid code;
moreover, in both salary-distribution computations, the band counts reflect
only the rows whose code is non-missing and different from the sentinel -2. -/
theorem claim_C2 :
    (∀ c ∈ validSalaryCodes,
        (pdCutBand c).isSome
        ∧ (pdCutBand c = some .b1 ↔ 0 ≤ c ∧ c ≤ 4)
        ∧ (pdCutBand c = some .b2 ↔ 4 < c ∧ c ≤ 7)
        ∧ (pdCutBand c = some .b3 ↔ 7 < c ∧ c ≤ 8)
        ∧ (pdCutBand c = some .b4 ↔ 8 < c)
        ∧ group_gaji (some c) = (pdCutBand c).elim "meow" bandLabel)
    ∧ (∀ (t : List Row) (peringkat : String) (b : Band),
        donut_count t peringkat b
          = ((t.filter (fun r => r.e_peringkat_label == some peringkat)).filterMap
              (fun r => r.e_44_kumpulan)).countP
              (fun x => !(x == -2) && pdCutBand x == some b))
    ∧ (∀ (t : List Row) (b : Band),
        gaji_ikut_kumpulan_count t (bandLabel b)
          = (t.filterMap (fun r => r.e_44_kumpulan)).countP
              (fun x => !(x == -2) && group_gaji (some x) == bandLabel b)) := by
  refine ⟨by decide, ?_, ?_⟩
  · intro t peringkat b
    rw [donut_count, donut_codes, List.countP_filter]
    exact List.countP_congr (fun x _ => by rw [Bool.and_comm])
  · intro t b
    rw [gaji_ikut_kumpulan_count, List.countP_map, countP_filterMap_matchNone]
    refine List.countP_congr (fun r _ => ?_)
    rcases hr : r.e_44_kumpulan with _ | v
    · simp [Function.comp_def, hr, group_gaji, meow_ne_bandLabel b]
    · by_cases hv : v = -2
      · subst hv
        simp [Function.comp_def, hr, group_gaji, meow_ne_bandLabel b]
        cases b <;> decide
      · have : (v == (-2 : ℚ)) = false := by simp [hv]
        simp [Function.comp_def, hr, this]

/-- A one-row table whose only salary-group code is the sentinel -2. -/
def tSentinel : List Row :=
  [{ e_peringkat_label := some "PhD", e_44_kumpulan := some (-2) }]

/-- Witness for claim C2 at the concrete valid code 5 and the concrete one-row
table `tSentinel` (whose sentinel code both pipelines ignore). -/
theorem claim_C2_witness :
    (pdCutBand 5 = some Band.b2 ↔ 4 < (5 : ℚ) ∧ (5 : ℚ) ≤ 7)
    ∧ donut_count tSentinel "PhD" Band.b1
        = ((tSentinel.filter
              (fun r => r.e_peringkat_label == some "PhD")).filterMap
            (fun r => r.e_44_kumpulan)).countP
            (fun x => !(x == -2) && pdCutBand x == some Band.b1) :=
  ⟨((claim_C2.1 5 (by decide)).2.2).1,
    claim_C2.2.1 tSentinel "PhD" Band.b1⟩

/-- Claim C10: the salary-group code 0 — non-missing and different from the
sentinel -2, hence kept by `mask_valid` — receives no band from
`pd.cut(bins=[0,4,7,8,inf], right=True)` (the lowest edge 0 is exclusive) and
so contributes to none of the four distribution counts of the study-level
donut functions. -/
theorem claim_C10 :
    pdCutBand 0 = none
    ∧ (0 : ℚ) ≠ -2
    ∧ donut_codes [{ e_peringkat_label := some "PhD", e_44_kumpulan := some 0 }] "PhD"
        = [0]
    ∧ (∀ b : Band,
        gaji_ikut_kumpulan_donut_phd
          [{ e_peringkat_label := some "PhD", e_44_kumpulan := some 0 }] b = 0) := by
  refine ⟨by decide, by norm_num, by decide, ?_⟩
  intro b
  cases b <;> decide

/-! ## Filter pipeline

Each multiselect dimension is filtered with the same idiom
(`dashboard.py` lines 299-310 for years, `fakulti.py` lines 304-355 for the
year → faculty → study level → program cascade): an empty selection leaves the
incoming table unchanged, a non-empty selection keeps the rows whose value is
`isin` the selection (`isin` is false on a missing cell); the option list of a
dimension is `sorted(table[col].dropna().unique())` — we keep the distinct
values as a `dedup` list, since only membership matters here. -/

/-- One dimension's filter step: `base if sel == [] else base[base[col].isin(sel)]`. -/
def filterStep (f : Row → Option String) (base : List Row) (sel : List String) :
    List Row :=
  if sel = [] then base
  else base.filter (fun r => match f r with
    | some v => sel.contains v
    | none => false)

/-- One dimension's option list: the distinct non-missing values,
`sorted(table[col].dropna().unique())` up to ordering. -/
def distinctVals (f : Row → Option String) (t : List Row) : List String :=
  (t.filterMap f).dedup

/-- `tapis_tahun` (fakulti.py lines 309-313): year step over the full table. -/
def tapis_tahun (df : List Row) (selYears : List String) : List Row :=
  filterStep (fun r => r.SKPG_Tahun) df selYears

/-- `fakulti_list = sorted(tapis_tahun["e_fakulti"].dropna().unique())`. -/
def fakulti_list (tapisTahun : List Row) : List String :=
  distinctVals (fun r => r.e_fakulti) tapisTahun

/-- `tapis_fakulti` (fakulti.py lines 323-327).  Note the source: the empty
branch returns `tapis_tahun`, but the non-empty branch filters the FULL table
`df`, not `tapis_tahun`. -/
def tapis_fakulti (df tapisTahun : List Row) (selFakultis : List String) :
    List Row :=
  if selFakultis = [] then tapisTahun
  else df.filter (fun r => match r.e_fakulti with
    | some v => selFakultis.contains v
    | none => false)

/-- `peringkat_pengajian_list = sorted(tapis_fakulti["e_peringkat_label"].dropna().unique())`. -/
def peringkat_pengajian_list (tapisFakulti : List Row) : List String :=
  distinctVals (fun r => r.e_peringkat_label) tapisFakulti

/-- `tapis_peringkat` (fakulti.py lines 337-341). -/
def tapis_peringkat (tapisFakulti : List Row) (sel : List String) : List Row :=
  filterStep (fun r => r.e_peringkat_label) tapisFakulti sel

/-- `program_list = sorted(tapis_peringkat["e_program"].dropna().unique())`. -/
def program_list (tapisPeringkat : List Row) : List String :=
  distinctVals (fun r => r.e_program) tapisPeringkat

/-- `tapis_program` (fakulti.py lines 351-355). -/
def tapis_program (tapisPeringkat : List Row) (sel : List String) : List Row :=
  filterStep (fun r => r.e_program) tapisPeringkat sel

/-- A two-row table mixing a present and a missing program value. -/
def tProgram : List Row :=
  [{ e_program := some "Sains Data" }, { e_program := none }]

/-- Counterexample to claim C5: on `tProgram`, the program filter step with an
empty selection keeps both rows, while the same step with the full distinct
program list `["Sains Data"]` as the explicit selection drops the row whose
program is missing — the two row sets differ. -/
theorem claim_C5_counterexample :
    tapis_program tProgram [] = tProgram
    ∧ program_list tProgram = ["Sains Data"]
    ∧ tapis_program tProgram (program_list tProgram) = [{ e_program := some "Sains Data" }]
    ∧ tapis_program tProgram (program_list tProgram) ≠ tapis_program tProgram [] := by
  refine ⟨by decide, by decide, by decide, by decide⟩

/-- Claim C5 as amended: for every dimension (any column projection `f`) and
table, the filter step with an empty selection returns the table unchanged,
while the filter step with the full distinct-value list keeps exactly the rows
whose value for that dimension is non-missing (so the two agree precisely on
tables whose rows all carry a value for the dimension — unless the distinct
list is itself empty, in which case the explicit selection also degenerates to
"keep all"). -/
theorem claim_C5_amended (f : Row → Option String) (t : List Row) :
    filterStep f t [] = t
    ∧ (distinctVals f t ≠ [] →
        filterStep f t (distinctVals f t) = t.filter (fun r => (f r).isSome))
    ∧ (distinctVals f t = [] → filterStep f t (distinctVals f t) = t) := by
  refine ⟨rfl, ?_, ?_⟩
  · intro hne
    rw [filterStep, if_neg hne]
    refine List.filter_congr (fun r hr => ?_)
    rcases hf : f r with _ | v
    · rfl
    · have hmem : v ∈ distinctVals f t := by
        rw [distinctVals, List.mem_dedup]
        exact List.mem_filterMap.mpr ⟨r, hr, hf⟩
      simp [hf, hmem]
  · intro he
    rw [filterStep, if_pos he]

/-- Witness for claim C5 as amended, at the program dimension of the concrete
table `tProgram` (whose distinct program list is non-empty). -/
theorem claim_C5_amended_witness :
    tapis_program tProgram [] = tProgram
    ∧ tapis_program tProgram (program_list tProgram)
        = tProgram.filter (fun r => (r.e_program).isSome) := by
  have h := claim_C5_amended (fun r => r.e_program) tProgram
  exact ⟨h.1, h.2.1 (by decide)⟩

/-- The two-row table for claim C7: both rows belong to Fakulti Sains, but in
different survey years and at different study levels. -/
def tCascade : List Row :=
  [{ SKPG_Tahun := some "2023", e_fakulti := some "Fakulti Sains",
     e_peringkat_label := some "Diploma" },
   { SKPG_Tahun := some "2024", e_fakulti := some "Fakulti Sains",
     e_peringkat_label := some "PhD" }]

/-- Claim C7 is a code bug: with year selection `["2024"]` and the non-empty
faculty selection `["Fakulti Sains"]`, the study-level option list is computed
from `tapis_fakulti`, whose non-empty branch filters the FULL table `df`
instead of the year-narrowed `tapis_tahun`; on `tCascade` it therefore offers
"Diploma", a level that occurs only in a row of the unselected year 2023.
The spec's strict left-to-right cascade would offer `["PhD"]` — the distinct
levels of the year-then-faculty narrowed rows. -/
theorem claim_C7_code_bug :
    peringkat_pengajian_list
        (tapis_fakulti tCascade (tapis_tahun tCascade ["2024"]) ["Fakulti Sains"])
      = ["Diploma", "PhD"]
    ∧ peringkat_pengajian_list
        ((tapis_tahun tCascade ["2024"]).filter (fun r => match r.e_fakulti with
          | some v => ["Fakulti Sains"].contains v
          | none => false))
      = ["PhD"]
    ∧ (∀ r ∈ tapis_tahun tCascade ["2024"], r.e_peringkat_label ≠ some "Diploma") := by
  refine ⟨by decide, by decide, by decide⟩

/-! ## Source ingestion

`build_year_maps` (dashboard.py lines 54-76) always records every discovered
year in `xlsx_map` and records a year in `parquet_map` only when its cache
conversion succeeded and the cache file exists (a conversion exception is
swallowed per year).  The top-level load (lines 112-118) is all-or-nothing:
`load_all_parquet(parquet_map)` whenever `parquet_map` is non-empty, else
`load_all_excel(xlsx_map)`.  We model a year's payload rows as `Nat`, a
loaded row as a `(year, payload)` pair (the `SKPG_Tahun` tagging of
`load_all_parquet` / `load_all_excel`), conversion success as a predicate on
years, and the per-file data as functions from the year; file reads
themselves are assumed not to raise (the `try/except` re-read path). -/

/-- The years that end up in `parquet_map`: the discovered years whose cache
conversion succeeded. -/
def parquet_years (discovered : List String) (convOk : String → Bool) :
    List String :=
  discovered.filter convOk

/-- `load_all_parquet` / `load_all_excel`: concatenate each listed year's
rows, tagging every row with its source year. -/
def load_years (data : String → List Nat) (years : List String) :
    List (String × Nat) :=
  years.flatMap (fun y => (data y).map (fun r => (y, r)))

/-- The unified table produced by the top-level load: all parquet years when
any cache exists, otherwise all discovered years from their spreadsheets. -/
def unified_table (discovered : List String) (convOk : String → Bool)
    (pdata xdata : String → List Nat) : List (String × Nat) :=
  if parquet_years discovered convOk = []
  then load_years xdata discovered
  else load_years pdata (parquet_years discovered convOk)

/-- Modelled from the spec (for the refinement comparison of claim C6): the
per-year cache-preferring loader the claim describes — every discovered
year's rows are present, each loaded from its cache when the cache exists and
from its spreadsheet otherwise. -/
def unifiedSpec (discovered : List String) (convOk : String → Bool)
    (pdata xdata : String → List Nat) : List (String × Nat) :=
  discovered.flatMap (fun y =>
    ((if convOk y then pdata y else xdata y)).map (fun r => (y, r)))

/-- Counterexample to claim C6: two discovered years where only 2023's cache
conversion succeeded.  The unified table contains only 2023's rows — 2024 is
omitted entirely, instead of falling back to its spreadsheet — so it differs
from the per-year cache-preferring load the claim describes. -/
theorem claim_C6_counterexample :
    unified_table ["2023", "2024"] (fun y => y == "2023")
        (fun _ => [7]) (fun _ => [7]) = [("2023", 7)]
    ∧ unifiedSpec ["2023", "2024"] (fun y => y == "2023")
        (fun _ => [7]) (fun _ => [7]) = [("2023", 7), ("2024", 7)]
    ∧ (∀ r : Nat, ("2024", r) ∉ unified_table ["2023", "2024"] (fun y => y == "2023")
        (fun _ => [7]) (fun _ => [7])) := by
  refine ⟨by decide, by decide, ?_⟩
  intro r h
  have h' : (("2024", r) : String × Nat) ∈ [(("2023", 7) : String × Nat)] := by
    rw [show unified_table ["2023", "2024"] (fun y => y == "2023")
        (fun _ => [7]) (fun _ => [7]) = [("2023", 7)] from by decide] at h
    exact h
  simp at h'

/-- Claim C6 as amended: membership in the unified table is characterized by
the all-or-nothing cache preference — when no discovered year has a valid
cache, the unified table holds exactly every discovered year's spreadsheet
rows; when at least one does, it holds exactly the cached years' cache rows,
so a cached year is never affected by another year's conversion failure, but
a year without a cache is omitted whenever any other year is cached. -/
theorem claim_C6_amended (discovered : List String) (convOk : String → Bool)
    (pdata xdata : String → List Nat) (y : String) (r : Nat) :
    (parquet_years discovered convOk = [] →
      ((y, r) ∈ unified_table discovered convOk pdata xdata ↔
        y ∈ discovered ∧ r ∈ xdata y))
    ∧ (parquet_years discovered convOk ≠ [] →
      ((y, r) ∈ unified_table discovered convOk pdata xdata ↔
        y ∈ discovered ∧ convOk y = true ∧ r ∈ pdata y)) := by
  constructor
  · intro he
    rw [unified_table, if_pos he, load_years]
    simp [List.mem_flatMap]
  · intro hne
    rw [unified_table, if_neg hne, load_years, parquet_years]
    simp only [List.mem_flatMap, List.mem_filter, List.mem_map]
    constructor
    · rintro ⟨z, ⟨hz, hc⟩, s, hs, heq⟩
      cases heq
      exact ⟨hz, hc, hs⟩
    · rintro ⟨hy, hc, hr⟩
      exact ⟨y, ⟨hy, hc⟩, r, hr, rfl⟩

/-- Witness for claim C6 as amended, on the concrete two-year input of the
counterexample: 2023 is cached, so membership reduces to the cached years. -/
theorem claim_C6_amended_witness :
    ("2023", 7) ∈ unified_table ["2023", "2024"] (fun y => y == "2023")
        (fun _ => [7]) (fun _ => [7])
    ↔ ("2023" ∈ (["2023", "2024"] : List String)
        ∧ ((fun y => y == "2023") "2023") = true ∧ 7 ∈ ([7] : List Nat)) :=
  (claim_C6_amended ["2023", "2024"] (fun y => y == "2023")
    (fun _ => [7]) (fun _ => [7]) "2023" 7).2 (by decide)

/-! ## Required-column checks

For claim C4 a table also carries its column set, and reading a column of a
data frame that lacks it is a pandas `KeyError`, embedded as `Except.error`
carrying the column name.  The rows of a `PTable` give the cell values of the
columns that are present; the `cols` field gates every access, so the field
values of an absent column are never observed. -/

/-- A data frame together with its set of present columns. -/
structure PTable where
  cols : List String
  rows : List Row
  deriving DecidableEq, Repr

/-- `df[c]`: the rows when column `c` is present, a `KeyError` naming `c`
otherwise. -/
def getCol (t : PTable) (c : String) : Except String (List Row) :=
  if t.cols.contains c then .ok t.rows else .error c

/-- `required_cols` of `graduate_employability_ikut_ptj` (dashboard.py line
365). -/
def required_cols_ge : List String :=
  ["e_status_label", "e_status", "e_54", "e_fakulti_label"]

/-- `responden = fak_df[fak_df["e_status_label"] != "Tiada Maklumat"]["e_status_label"].count()`:
a missing label passes the `!=` mask but is dropped by `.count()`. -/
def responden (t : List Row) : Nat :=
  (t.filter (fun r => !(r.e_status_label == some "Tiada Maklumat"))).countP
    (fun r => r.e_status_label.isSome)

/-- `gm = (responden - belum_bekerja) / responden * 100 if responden > 0 else 0`
(the `belum_bekerja` count is the same expression as `tidak_bekerja`). -/
def gm (t : List Row) : ℚ :=
  if 0 < responden t
  then ((responden t : ℚ) - (tidak_bekerja t : ℚ)) / (responden t : ℚ) * 100
  else 0

/-- `graduate_employability_ikut_ptj` (dashboard.py lines 359-439): the
required-column check precedes the loop; on failure it warns
("Kolum yang diperlukan tidak lengkap dalam data.") and returns without a
metric, embedded as `.ok none`.  The body reads exactly the four checked
columns (the inner `if "e_status_label" in fak_df.columns` re-check is always
true under the outer check), so the accesses are gathered before the loop. -/
def graduate_employability_ikut_ptj (t : PTable) :
    Except String (Option (List (String × ℚ × ℚ))) :=
  if required_cols_ge.all (fun c => t.cols.contains c) then do
    let _ ← getCol t "e_fakulti_label"
    let _ ← getCol t "e_status_label"
    let _ ← getCol t "e_status"
    let _ ← getCol t "e_54"
    pure (some (all_fakulti.map (fun fak =>
      let fdf := t.rows.filter (fun r => r.e_fakulti_label == some fak)
      (fak, percent_ge fdf, gm fdf))))
  else
    pure none

/-- The skill-code groups of `kemahiran_kerja` (dashboard.py lines 773-775). -/
def mahir_codes : List Int := [1, 2, 3]

/-- `separa_mahir_codes` (dashboard.py line 774). -/
def separa_mahir_codes : List Int := [4, 5, 6, 7, 8, 10]

/-- `rendah_codes` (dashboard.py line 775). -/
def rendah_codes : List Int := [9]

/-- The per-faculty body of `kemahiran_kerja`: restrict to the faculty, drop
the `-2` codes (`kerja_df = fak_df[fak_df["e_41_a"] != -2]`, missing codes
pass the mask), count the non-missing codes, and take the three percentage
shares (all zero when the denominator is zero). -/
def kemahiran_fak (t : List Row) (fak : String) : ℚ × ℚ × ℚ :=
  let kerja := (t.filter (fun r => r.e_fakulti_label == some fak)).filter
      (fun r => !(r.e_41_a == some (-2)))
  let total := kerja.countP (fun r => r.e_41_a.isSome)
  if total = 0 then (0, 0, 0)
  else
    (((kerja.countP (fun r => match r.e_41_a with
        | some v => mahir_codes.contains v
        | none => false) : ℚ) / (total : ℚ) * 100),
     ((kerja.countP (fun r => match r.e_41_a with
        | some v => separa_mahir_codes.contains v
        | none => false) : ℚ) / (total : ℚ) * 100),
     ((kerja.countP (fun r => match r.e_41_a with
        | some v => rendah_codes.contains v
        | none => false) : ℚ) / (total : ℚ) * 100))

/-- `kemahiran_kerja` (dashboard.py lines 767-843): unlike its siblings it has
NO required-column check — the loop body reads `e_fakulti_label` and `e_41_a`
unconditionally (gathered before the loop; the loop always runs since
`all_fakulti` is non-empty). -/
def kemahiran_kerja (t : PTable) :
    Except String (List (String × (ℚ × ℚ × ℚ))) := do
  let _ ← getCol t "e_fakulti_label"
  let _ ← getCol t "e_41_a"
  pure (all_fakulti.map (fun fak => (fak, kemahiran_fak t.rows fak)))

/-- `graduate_employability` (fakulti.py lines 591-606).  The source guard is
`if "e_status_label" and "e_54" and "e_status" in filtered_df.columns:` which,
by Python precedence, evaluates to `"e_status" in filtered_df.columns` — the
two string literals are truthy — so only `e_status` is actually checked; the
body then reads `e_status_label`, `e_status` and `e_54`.  When the guard
fails the function silently produces nothing (`.ok none`). -/
def graduate_employability (t : PTable) : Except String (Option ℚ) :=
  if t.cols.contains "e_status" then do
    let _ ← getCol t "e_status_label"
    let _ ← getCol t "e_status"
    let _ ← getCol t "e_54"
    pure (some (percent_ge t.rows))
  else
    pure none

/-- Counterexample to claim C4: two metric-engine functions raise a
`KeyError` instead of reporting insufficient data.  `kemahiran_kerja` has no
required-column check at all, and on a table having `e_fakulti_label` but not
`e_41_a` it raises; fakulti's `graduate_employability` checks only
`e_status` (operator-precedence slip), so on a table having `e_status` but
not `e_status_label` it passes its own check and then raises. -/
theorem claim_C4_counterexample :
    kemahiran_kerja ⟨["e_fakulti_label"], [{ e_fakulti_label := some "FS" }]⟩
      = .error "e_41_a"
    ∧ graduate_employability ⟨["e_status"], [{ e_status := some 1 }]⟩
      = .error "e_status_label" := by
  constructor <;> rfl

/-- Claim C4 as amended: `graduate_employability_ikut_ptj` does check its
required columns first and never raises — on a missing column it returns the
insufficient-data warning with no metric; but `kemahiran_kerja` has no check
and raises a `KeyError` on a table lacking `e_41_a`, and fakulti's
`graduate_employability` effectively checks only `e_status`, so it raises on
a table having `e_status` but lacking `e_status_label`. -/
theorem claim_C4_amended (t : PTable) :
    (∀ e, graduate_employability_ikut_ptj t ≠ .error e)
    ∧ (required_cols_ge.all (fun c => t.cols.contains c) = false →
        graduate_employability_ikut_ptj t = .ok none)
    ∧ (t.cols.contains "e_fakulti_label" = true →
        t.cols.contains "e_41_a" = false →
        kemahiran_kerja t = .error "e_41_a")
    ∧ (t.cols.contains "e_status" = true →
        t.cols.contains "e_status_label" = false →
        graduate_employability t = .error "e_status_label") := by
  refine ⟨?_, ?_, ?_, ?_⟩
  · intro e
    by_cases hg : required_cols_ge.all (fun c => t.cols.contains c) = true
    · have h1 : getCol t "e_status_label" = .ok t.rows := by
        rw [getCol, if_pos (List.all_eq_true.mp hg "e_status_label" (by decide))]
      have h2 : getCol t "e_status" = .ok t.rows := by
        rw [getCol, if_pos (List.all_eq_true.mp hg "e_status" (by decide))]
      have h3 : getCol t "e_54" = .ok t.rows := by
        rw [getCol, if_pos (List.all_eq_true.mp hg "e_54" (by decide))]
      have h4 : getCol t "e_fakulti_label" = .ok t.rows := by
        rw [getCol, if_pos (List.all_eq_true.mp hg "e_fakulti_label" (by decide))]
      simp only [graduate_employability_ikut_ptj]
      rw [if_pos hg, h1, h2, h3, h4]
      exact fun h => Except.noConfusion h
    · simp only [graduate_employability_ikut_ptj]
      rw [if_neg hg]
      exact fun h => Except.noConfusion h
  · intro hg
    simp only [graduate_employability_ikut_ptj]
    rw [if_neg (fun hc => by rw [hc] at hg; exact Bool.noConfusion hg)]
    rfl
  · intro h1 h2
    have e1 : getCol t "e_fakulti_label" = .ok t.rows := by rw [getCol, if_pos h1]
    have e2 : getCol t "e_41_a" = .error "e_41_a" := by
      rw [getCol, if_neg (fun hc => by rw [hc] at h2; exact Bool.noConfusion h2)]
    simp only [kemahiran_kerja]
    rw [e1, e2]
    rfl
  · intro h1 h2
    have e1 : getCol t "e_status_label" = .error "e_status_label" := by
      rw [getCol, if_neg (fun hc => by rw [hc] at h2; exact Bool.noConfusion h2)]
    simp only [graduate_employability]
    rw [if_pos h1, e1]
    rfl

/-- Witness for claim C4 as amended at two concrete tables: one lacking
`e_41_a` on which `kemahiran_kerja` raises, and one with no columns at all on
which the checked `graduate_employability_ikut_ptj` warns and skips. -/
theorem claim_C4_amended_witness :
    kemahiran_kerja ⟨["e_fakulti_label"], []⟩ = .error "e_41_a"
    ∧ graduate_employability_ikut_ptj ⟨[], []⟩ = .ok none :=
  ⟨(claim_C4_amended ⟨["e_fakulti_label"], []⟩).2.2.1 (by decide) (by decide),
   (claim_C4_amended ⟨[], []⟩).2.1 (by decide)⟩

/-! ## Code-to-label normalization

dashboard.py (lines 271-285) derives every label column with
`df.get(raw, pd.Series(dtype=object)).astype(str).map(lookup)` — `.get` never
raises, and when the raw column is absent the assigned label column is empty
and aligns to an all-missing column.  fakulti.py (lines 269-283) instead uses
`df[raw].astype(str).map(lookup)`, which raises a `KeyError` on an absent raw
column; only `e_status_GE2024` is guarded by an `in df.columns` test in both
files.  A row is embedded as a finite map from column name to string value
(`Cell`, an association list whose order is irrelevant to `getCell`); a key
absent from a row is that row's missing value, and `astype(str)` renders a
missing value as `"nan"`, which no lookup table maps. -/

/-- A row of the raw table: an association list from column name to the
(string-rendered) cell value; an absent key is a missing cell. -/
abbrev Cell := List (String × String)

/-- The value of column `c` in row `r`, `none` when missing. -/
def getCell (r : Cell) (c : String) : Option String :=
  (r.find? (fun p => p.1 == c)).map (fun p => p.2)

/-- Column assignment `df[c] = v` at the row level: `some s` stores `s`,
`none` (a missing label) leaves the key undefined; any previous value of `c`
is overwritten. -/
def setCell (r : Cell) (c : String) (v : Option String) : Cell :=
  match v with
  | some s => (c, s) :: r.filter (fun p => !(p.1 == c))
  | none => r.filter (fun p => !(p.1 == c))

/-- `.astype(str)` of one cell: a missing value renders as `"nan"`. -/
def astypeStr (r : Cell) (c : String) : String :=
  match getCell r c with
  | some s => s
  | none => "nan"

/-- `.map(lookup)` of one cell: `none` (pandas `NaN`) for an unmapped code. -/
def lookupMap (m : List (String × String)) (k : String) : Option String :=
  (m.find? (fun p => p.1 == k)).map (fun p => p.2)

/-- `warganegara_map`. -/
def warganegara_map : List (String × String) :=
  [("1", "Warganegara"), ("2", "Bukan Warganegara")]

/-- `status_pekerjaan_map`. -/
def status_pekerjaan_map : List (String × String) :=
  [("-2", "Tidak Berkenaan"), ("1", "Bekerja"), ("2", "Belum/Tidak Bekerja"),
   ("4", "Bekerja Sepenuh Masa"), ("7", "Melanjutkan Pengajian"),
   ("52", "Bekerja (Mempunyai Majikan/Bekerja Sendiri/Usahawan/Freelance)"),
   ("90", "Menganggur"), ("91", "Penganggur Aktif"),
   ("92", "Penganggur Tidak Aktif"), ("93", "Luar Tenaga Buruh")]

/-- `status_kerjage_map`. -/
def status_kerjage_map : List (String × String) :=
  [("-2", "Tidak Berkenaan"), ("1", "Bekerja"), ("5", "Belum Bekerja")]

/-- `status_kerja_map` as defined in dashboard.py (no entry for `"-2"`). -/
def status_kerja_map_dashboard : List (String × String) :=
  [("0", "Tiada Maklumat"), ("1", "Bekerja"), ("2", "Melanjutkan Pengajian"),
   ("3", "Meningkatkan kemahiran"), ("4", "Menunggu penempatan pekerjaan"),
   ("5", "Belum Bekerja")]

/-- `status_kerja_map` as defined in fakulti.py (extra entry mapping `"-2"`
to "Tiada Maklumat" — the known inconsistency noted in the spec). -/
def status_kerja_map_fakulti : List (String × String) :=
  [("-2", "Tiada Maklumat"), ("0", "Tiada Maklumat"), ("1", "Bekerja"),
   ("2", "Melanjutkan Pengajian"), ("3", "Meningkatkan kemahiran"),
   ("4", "Menunggu penempatan pekerjaan"), ("5", "Belum Bekerja")]

/-- `status_penyertaan_map`. -/
def status_penyertaan_map : List (String × String) :=
  [("1", "Sertai"), ("2", "Tidak/Belum Sertai"), ("3", "Tidak Lengkap")]

/-- `sebab_tidak_bekerja_map`. -/
def sebab_tidak_bekerja_map : List (String × String) :=
  [("1", "Melanjutkan Pengajian"), ("5", "Sedang Mencari Pekerjaan"),
   ("7", "Tanggungjawab Terhadap Keluarga"),
   ("8", "Kurang Keyakinan Diri Untuk Memasuki Dunia Pekerjaan"),
   ("10", "Memilih Untuk Tidak Bekerja"), ("11", "Tidak Berminat Untuk Bekerja"),
   ("13", "Menunggu Penempatan Pekerjaan (Telah Menerima Tawaran Pekerjaan)"),
   ("14", "Mengikut Kursus Jangka Pendek"), ("15", "Berehat/Melancong/Bercuti"),
   ("17", "Menunggu Keputusan/Tawaran Melanjutkan Pengajian"),
   ("18", "Enggan Berpindah Ke Tempat Lain"), ("20", "Sebab Hilang Upaya"),
   ("21", "Tidak Dibenarkan Untuk Bekerja Oleh Keluarga"),
   ("28", "Tidak Dibenarkan Untuk Bekerja Oleh Undang-Undang"),
   ("30", "Bersara Pilihan/Wajib"),
   ("31", "Mengikuti Program Inkubasi Usahawan"),
   ("32", "Sebab Kesihatan (Termasuk Baru Bersalin)"),
   ("33", "Sedang Mengikuti Kursus Peningkatan Kemahiran"),
   ("34", "Pekerjaan yang Ditawarkan Tidak Bersesuaian")]

/-- `peringkat_pengajian_map`. -/
def peringkat_pengajian_map : List (String × String) :=
  [("1", "Diploma"), ("2", "Diploma Pancasiswazah"), ("3", "PhD"),
   ("4", "Sarjana Muda"), ("5", "Sarjana"), ("63", "Diploma")]

/-- `fakulti_map` (faculty long name to canonical short code). -/
def fakulti_map : List (String × String) :=
  [("Fakulti Sains", "FS"),
   ("Fakulti Sains Komputer Dan Teknologi Maklumat", "FSKTM"),
   ("Fakulti Kejuruteraan", "FK"), ("Fakulti Perubatan", "FOM"),
   ("Fakulti Farmasi", "FF"), ("Fakulti Undang-Undang", "FUU"),
   ("Fakulti Ekonomi Dan Pentadbiran", "FPE"), ("Fakulti Pendidikan", "EDU"),
   ("Fakulti Bahasa Dan Linguistik", "FBL"), ("Fakulti Alam Bina", "FAB"),
   ("Akademi Pengajian Islam", "API"), ("Akademi Pengajian Melayu", "APM"),
   ("Fakulti Sastera Dan Sains Sosial", "FSSS"),
   ("Fakulti Seni Kreatif", "FSK"), ("Pusat Kebudayaan", "FSK"),
   ("Fakulti Pergigian", "FOD"), ("Fakulti Perniagaan Dan Ekonomi", "FPE"),
   ("Institut Asia Eropah", "AEI"), ("Institut Pengajian Termaju", "IAS"),
   ("Int Antarabangsa Polisi Awam Dan Pengurusan (Inpuma)", "INPUMA"),
   ("Fakulti Sukan Dan Sains Eksesais", "FSSE"),
   ("Pusat Sukan Dan Sains Eksesais", "FSSE"),
   ("Pusat Sukan & Sains Eksesais", "FSSE"),
   ("Fakulti Sukan & Sains Eksesais", "FSSE"),
   ("University Of Malaya Centre For Continuing Education", "UMCCED"),
   ("Umcced", "UMCCED")]

/-- `sektor_pekerjaan_map`. -/
def sektor_pekerjaan_map : List (String × String) :=
  [("-2", "Tidak Berkenaan"), ("2", "Badan Berkanun"),
   ("3", "Syarikat Multinasional"), ("4", "Syarikat Tempatan"),
   ("7", "Syarikat Berkaitan Kerajaan (GLC)"),
   ("8", "Perutubuhan Bukan Kerajaan (NGO)"), ("9", "Kerajaan Persekutuan"),
   ("10", "Kerajaan Negeri/Tempatan"), ("11", "Ekonomi Gig")]

/-- `taraf_pekerjaan_map` as in dashboard.py. -/
def taraf_pekerjaan_map_dashboard : List (String × String) :=
  [("-2", "Tidak Berkenaan"), ("4", "Bekerja Sendiri"),
   ("5", "Bekerja dengan Keluarga"), ("6", "Majikan"),
   ("7", "Pekerja Kerajaan"), ("8", "Pekerja Swasta (Termasuk NGO)"),
   ("9", "Pekerja (Kerajaan/Swasta/Pekerja Keluarga dengan upah/gaji)"),
   ("10", "Pekerja (Kerajaan/Swasta)"), ("40", "Freelance"),
   ("46", "Usahawan"), ("47", "Bekerja Sendiri (e+p-hailing)"),
   ("51", "Bekerja dengan Keluarga (upah/gaji)"),
   ("52", "Bekerja dengan Keluarga (tiada upah/gaji)")]

/-- `taraf_pekerjaan_map` as in fakulti.py (double spaces in three labels). -/
def taraf_pekerjaan_map_fakulti : List (String × String) :=
  [("-2", "Tidak Berkenaan"), ("4", "Bekerja Sendiri"),
   ("5", "Bekerja  dengan Keluarga"), ("6", "Majikan"),
   ("7", "Pekerja Kerajaan"), ("8", "Pekerja Swasta (Termasuk NGO)"),
   ("9", "Pekerja (Kerajaan/Swasta/Pekerja Keluarga dengan upah/gaji)"),
   ("10", "Pekerja (Kerajaan/Swasta)"), ("40", "Freelance"),
   ("46", "Usahawan"), ("47", "Bekerja Sendiri (e+p-hailing)"),
   ("51", "Bekerja  dengan Keluarga (upah/gaji)"),
   ("52", "Bekerja dengan Keluarga (tiada upah/gaji)")]

/-- `kumpulan_pekerjaan_map` (fakulti.py only). -/
def kumpulan_pekerjaan_map : List (String × String) :=
  [("-2", "Tidak Berkenaan"), ("1", "Pengurus"), ("2", "Profesional"),
   ("3", "Juruteknik dan Profesional Bersekutu"),
   ("4", "Pekerja Sokongan Perkeranian"),
   ("5", "Pekerja Perkhidmatan dan Jualan"),
   ("6", "Pekerja Mahir Pertanian, Perhutanan, Penternakan, dan Perikanan"),
   ("7", "Pekerja Kemahiran dan Pekerja Pertukangan yang Berkaitan"),
   ("8", "Operator Mesin dan Loji, dan Pemasang"), ("9", "Pekerja Asas"),
   ("10", "Angkatan Tentera")]

/-- `bekerja_dalam_bidang_map`. -/
def bekerja_dalam_bidang_map : List (String × String) :=
  [("-2", "Tidak Berkenaan"), ("-1", "Tidak Dinyatakan"), ("1", "Ya"),
   ("2", "Tidak")]

/-- `gaji_kumpulan` (dashboard.py only). -/
def gaji_kumpulan : List (String × String) :=
  [("-2", "Tidak Berkaitan"), ("1", "RM1,000 dan ke bawah"),
   ("2", "RM1,001 - RM1,500"), ("4", "RM1,501 - RM2,000"),
   ("5", "RM2,001 - RM2,500"), ("6", "RM2,501 - RM3,000"),
   ("7", "RM3,001 - RM3,500"), ("8", "RM3,501 - RM4,000"),
   ("11", "RM4,001 - RM5,001"), ("12", "RM5,001 - RM10,001"),
   ("13", "RM5,001 dan ke atas"), ("14", "Lebih daripada RM10,000"),
   ("15", "RM5,001 - RM8,500"), ("16", "RM8,501 dan ke atas")]

/-- A raw table with its column set, for the normalization step. -/
structure NTable where
  cols : List String
  rows : List Cell
  deriving DecidableEq, Repr

/-- One dashboard-style label derivation
`df[lbl] = df.get(raw, pd.Series(dtype=object)).astype(str).map(m)`: when the
raw column is present, look each row's string value up in `m`; when absent,
the assigned label cell is missing in every row. -/
def mapStep (cols : List String) (raw lbl : String) (m : List (String × String))
    (r : Cell) : Cell :=
  if cols.contains raw then setCell r lbl (lookupMap m (astypeStr r raw))
  else setCell r lbl none

/-- The guarded `e_status_GE2024` derivation (both files): only performed when
the raw column is present; otherwise the row is untouched and no label column
is created. -/
def guardedStep (cols : List String) (r : Cell) : Cell :=
  if cols.contains "e_status_GE2024" then
    setCell r "e_status_GE2024_label"
      (lookupMap status_kerjage_map (astypeStr r "e_status_GE2024"))
  else r

/-- The dashboard.py normalization of one row, in source order (innermost
application first): e_warganegara, e_40, the guarded e_status_GE2024,
e_status, e_statusPenyertaan, e_54, e_peringkat, e_fakulti, e_43, e_45,
e_50_b, e_44_kumpulan. -/
def dashNormRow (cols : List String) (r : Cell) : Cell :=
  mapStep cols "e_44_kumpulan" "e_44_kumpulan_label" gaji_kumpulan
  (mapStep cols "e_50_b" "e_50_b_label" bekerja_dalam_bidang_map
  (mapStep cols "e_45" "e_45_label" sektor_pekerjaan_map
  (mapStep cols "e_43" "e_43_label" taraf_pekerjaan_map_dashboard
  (mapStep cols "e_fakulti" "e_fakulti_label" fakulti_map
  (mapStep cols "e_peringkat" "e_peringkat_label" peringkat_pengajian_map
  (mapStep cols "e_54" "e_54_label" sebab_tidak_bekerja_map
  (mapStep cols "e_statusPenyertaan" "e_statusPenyertaan_label" status_penyertaan_map
  (mapStep cols "e_status" "e_status_label" status_kerja_map_dashboard
  (guardedStep cols
  (mapStep cols "e_40" "e_40_label" status_pekerjaan_map
  (mapStep cols "e_warganegara" "e_warganegara_label" warganegara_map r)))))))))))

/-- Add a column name to the column set (assignment creates the column if
new). -/
def addCol (cols : List String) (c : String) : List String :=
  if cols.contains c then cols else cols ++ [c]

/-- The column set after the dashboard.py normalization: every unguarded
label column is always created (even when all-missing); the
`e_status_GE2024_label` column exists only when its raw column does. -/
def dashNormCols (cols : List String) : List String :=
  addCol (addCol (addCol (addCol (addCol (addCol (addCol (addCol (addCol
    (if cols.contains "e_status_GE2024"
     then addCol (addCol (addCol cols "e_warganegara_label") "e_40_label")
            "e_status_GE2024_label"
     else addCol (addCol cols "e_warganegara_label") "e_40_label")
    "e_status_label") "e_statusPenyertaan_label") "e_54_label")
    "e_peringkat_label") "e_fakulti_label") "e_43_label") "e_45_label")
    "e_50_b_label") "e_44_kumpulan_label"

/-- The dashboard.py normalization (lines 271-285): total — `df.get` never
raises. -/
def dashNormalize (t : NTable) : NTable :=
  ⟨dashNormCols t.cols, t.rows.map (dashNormRow t.cols)⟩

/-- `df[c]` for fakulti.py's normalization: a `KeyError` on an absent raw
column. -/
def requireCol (t : NTable) (c : String) : Except String Unit :=
  if t.cols.contains c then .ok () else .error c

/-- The fakulti.py normalization of one row, in source order: e_warganegara,
e_40, the guarded e_status_GE2024, e_status (with the fakulti map), e_statusPenyertaan,
e_54, e_peringkat, e_fakulti, e_43 (fakulti map), e_45, e_41_a, e_50_b. -/
def fakNormRow (cols : List String) (r : Cell) : Cell :=
  mapStep cols "e_50_b" "e_50_b_label" bekerja_dalam_bidang_map
  (mapStep cols "e_41_a" "e_41_a_label" kumpulan_pekerjaan_map
  (mapStep cols "e_45" "e_45_label" sektor_pekerjaan_map
  (mapStep cols "e_43" "e_43_label" taraf_pekerjaan_map_fakulti
  (mapStep cols "e_fakulti" "e_fakulti_label" fakulti_map
  (mapStep cols "e_peringkat" "e_peringkat_label" peringkat_pengajian_map
  (mapStep cols "e_54" "e_54_label" sebab_tidak_bekerja_map
  (mapStep cols "e_statusPenyertaan" "e_statusPenyertaan_label" status_penyertaan_map
  (mapStep cols "e_status" "e_status_label" status_kerja_map_fakulti
  (guardedStep cols
  (mapStep cols "e_40" "e_40_label" status_pekerjaan_map
  (mapStep cols "e_warganegara" "e_warganegara_label" warganegara_map r)))))))))))

/-- The column set after the fakulti.py normalization. -/
def fakNormCols (cols : List String) : List String :=
  addCol (addCol (addCol (addCol (addCol (addCol (addCol (addCol (addCol
    (if cols.contains "e_status_GE2024"
     then addCol (addCol (addCol cols "e_warganegara_label") "e_40_label")
            "e_status_GE2024_label"
     else addCol (addCol cols "e_warganegara_label") "e_40_label")
    "e_status_label") "e_statusPenyertaan_label") "e_54_label")
    "e_peringkat_label") "e_fakulti_label") "e_43_label") "e_45_label")
    "e_41_a_label") "e_50_b_label"

/-- The fakulti.py normalization (lines 269-283): raises a `KeyError` on the
first absent unguarded raw column, in source order.  (In Python the
assignments before the failing one have already run; the exception then
aborts the page, so only the raised error is observable.) -/
def fakNormalize (t : NTable) : Except String NTable := do
  let _ ← requireCol t "e_warganegara"
  let _ ← requireCol t "e_40"
  let _ ← requireCol t "e_status"
  let _ ← requireCol t "e_statusPenyertaan"
  let _ ← requireCol t "e_54"
  let _ ← requireCol t "e_peringkat"
  let _ ← requireCol t "e_fakulti"
  let _ ← requireCol t "e_43"
  let _ ← requireCol t "e_45"
  let _ ← requireCol t "e_41_a"
  let _ ← requireCol t "e_50_b"
  pure ⟨fakNormCols t.cols, t.rows.map (fakNormRow t.cols)⟩

lemma find?_filter_ne (r : Cell) (c c' : String) (h : c' ≠ c) :
    (r.filter (fun p => !(p.1 == c))).find? (fun p => p.1 == c')
      = r.find? (fun p => p.1 == c') := by
  induction r with
  | nil => rfl
  | cons p r ih =>
    have hcc : (c == c') = false := beq_eq_false_iff_ne.mpr (fun he => h he.symm)
    by_cases hp : p.1 = c
    · have hpc : ¬ p.1 = c' := by rw [hp]; exact fun he => h he.symm
      simp [List.filter_cons, hp, List.find?_cons, hpc, hcc, h, ih]
    · by_cases hp' : p.1 = c'
      · simp [List.filter_cons, hp, List.find?_cons, hp', hcc, h]
      · simp [List.filter_cons, hp, List.find?_cons, hp', hcc, h, ih]

lemma find?_filter_self (r : Cell) (c : String) :
    (r.filter (fun p => !(p.1 == c))).find? (fun p => p.1 == c) = none := by
  induction r with
  | nil => rfl
  | cons p r ih =>
    by_cases hp : p.1 = c
    · simp [List.filter_cons, hp, ih]
    · simp [List.filter_cons, hp, List.find?_cons, ih]

lemma getCell_setCell_ne (r : Cell) (c c' : String) (v : Option String)
    (h : c' ≠ c) :
    getCell (setCell r c v) c' = getCell r c' := by
  cases v with
  | none => rw [setCell, getCell, getCell, find?_filter_ne r c c' h]
  | some s =>
    have hcc : (c == c') = false := beq_eq_false_iff_ne.mpr (fun he => h he.symm)
    rw [setCell, getCell, getCell]
    simp only [List.find?_cons, hcc]
    rw [find?_filter_ne r c c' h]

lemma getCell_setCell_none (r : Cell) (c : String) :
    getCell (setCell r c none) c = none := by
  rw [setCell, getCell, find?_filter_self]
  rfl

lemma getCell_mapStep_ne (cols : List String) (raw lbl : String)
    (m : List (String × String)) (r : Cell) (c' : String) (h : c' ≠ lbl) :
    getCell (mapStep cols raw lbl m r) c' = getCell r c' := by
  rw [mapStep]
  split
  · exact getCell_setCell_ne _ _ _ _ h
  · exact getCell_setCell_ne _ _ _ _ h

lemma getCell_guardedStep_ne (cols : List String) (r : Cell) (c' : String)
    (h : c' ≠ "e_status_GE2024_label") :
    getCell (guardedStep cols r) c' = getCell r c' := by
  rw [guardedStep]
  split
  · exact getCell_setCell_ne _ _ _ _ h
  · rfl

lemma mem_addCol_self (cols : List String) (c : String) : c ∈ addCol cols c := by
  rw [addCol]
  split
  · next h => exact List.mem_of_elem_eq_true h
  · exact List.mem_append_right _ (by simp)

lemma mem_addCol_of_mem {cols : List String} {x : String} (c : String)
    (h : x ∈ cols) : x ∈ addCol cols c := by
  rw [addCol]
  split
  · exact h
  · exact List.mem_append_left _ h

lemma not_mem_addCol {cols : List String} {x : String} {c : String}
    (h : x ∉ cols) (hne : x ≠ c) : x ∉ addCol cols c := by
  rw [addCol]
  split
  · exact h
  · intro hx
    rcases List.mem_append.mp hx with h1 | h2
    · exact h h1
    · rw [List.mem_singleton] at h2
      exact hne h2

/-- A table lacking the raw citizenship column (but having others). -/
def tNoWarga : NTable :=
  ⟨["e_40", "e_status"], [[("e_40", "1"), ("e_status", "1")]]⟩

/-- Counterexample to claim C8: the fakulti.py normalization raises a
`KeyError` on the table `tNoWarga`, which merely lacks the optional raw
column `e_warganegara` — it does not complete; the dashboard.py normalization
of the same table completes (one output row per input row). -/
theorem claim_C8_counterexample :
    fakNormalize tNoWarga = .error "e_warganegara"
    ∧ (dashNormalize tNoWarga).rows.length = tNoWarga.rows.length := by
  constructor
  · rfl
  · rfl

/-- Claim C8 as amended: the dashboard.py normalization never fails — it
always yields one output row per input row, the label column of an absent
unguarded raw column (here `e_warganegara`) is created but left entirely
undefined in every row, and the guarded `e_status_GE2024_label` column is
simply omitted when its raw column is absent; the fakulti.py normalization
instead raises a `KeyError` whenever an unguarded raw column such as
`e_warganegara` is absent. -/
theorem claim_C8_amended (t : NTable) :
    (dashNormalize t).rows.length = t.rows.length
    ∧ (t.cols.contains "e_warganegara" = false →
        ∀ r ∈ (dashNormalize t).rows, getCell r "e_warganegara_label" = none)
    ∧ "e_warganegara_label" ∈ (dashNormalize t).cols
    ∧ (t.cols.contains "e_status_GE2024" = false →
        t.cols.contains "e_status_GE2024_label" = false →
        "e_status_GE2024_label" ∉ (dashNormalize t).cols)
    ∧ (t.cols.contains "e_warganegara" = false →
        fakNormalize t = .error "e_warganegara") := by
  refine ⟨by simp [dashNormalize], ?_, ?_, ?_, ?_⟩
  · intro h0 r' hr'
    simp only [dashNormalize] at hr'
    obtain ⟨r, _, rfl⟩ := List.mem_map.mp hr'
    rw [dashNormRow,
      getCell_mapStep_ne _ _ "e_44_kumpulan_label" _ _ "e_warganegara_label" (by decide),
      getCell_mapStep_ne _ _ "e_50_b_label" _ _ "e_warganegara_label" (by decide),
      getCell_mapStep_ne _ _ "e_45_label" _ _ "e_warganegara_label" (by decide),
      getCell_mapStep_ne _ _ "e_43_label" _ _ "e_warganegara_label" (by decide),
      getCell_mapStep_ne _ _ "e_fakulti_label" _ _ "e_warganegara_label" (by decide),
      getCell_mapStep_ne _ _ "e_peringkat_label" _ _ "e_warganegara_label" (by decide),
      getCell_mapStep_ne _ _ "e_54_label" _ _ "e_warganegara_label" (by decide),
      getCell_mapStep_ne _ _ "e_statusPenyertaan_label" _ _ "e_warganegara_label" (by decide),
      getCell_mapStep_ne _ _ "e_status_label" _ _ "e_warganegara_label" (by decide),
      getCell_guardedStep_ne _ _ "e_warganegara_label" (by decide),
      getCell_mapStep_ne _ _ "e_40_label" _ _ "e_warganegara_label" (by decide),
      mapStep, if_neg (fun hc => by rw [hc] at h0; exact Bool.noConfusion h0)]
    exact getCell_setCell_none r "e_warganegara_label"
  · simp only [dashNormalize, dashNormCols]
    have hbase : "e_warganegara_label"
        ∈ addCol (addCol t.cols "e_warganegara_label") "e_40_label" :=
      mem_addCol_of_mem _ (mem_addCol_self _ _)
    have hmid : "e_warganegara_label"
        ∈ (if t.cols.contains "e_status_GE2024"
           then addCol (addCol (addCol t.cols "e_warganegara_label") "e_40_label")
                  "e_status_GE2024_label"
           else addCol (addCol t.cols "e_warganegara_label") "e_40_label") := by
      split
      · exact mem_addCol_of_mem _ hbase
      · exact hbase
    exact mem_addCol_of_mem _ (mem_addCol_of_mem _ (mem_addCol_of_mem _
      (mem_addCol_of_mem _ (mem_addCol_of_mem _ (mem_addCol_of_mem _
        (mem_addCol_of_mem _ (mem_addCol_of_mem _ (mem_addCol_of_mem _ hmid))))))))
  · intro h0 h1
    simp only [dashNormalize, dashNormCols]
    rw [if_neg (fun hc => by rw [hc] at h0; exact Bool.noConfusion h0)]
    have hb : "e_status_GE2024_label" ∉ t.cols := by
      intro hm
      have h2 : t.cols.contains "e_status_GE2024_label" = true :=
        List.elem_eq_true_of_mem hm
      rw [h2] at h1
      exact Bool.noConfusion h1
    exact not_mem_addCol (not_mem_addCol (not_mem_addCol (not_mem_addCol
      (not_mem_addCol (not_mem_addCol (not_mem_addCol (not_mem_addCol
        (not_mem_addCol (not_mem_addCol (not_mem_addCol hb (by decide))
          (by decide)) (by decide)) (by decide)) (by decide)) (by decide))
            (by decide)) (by decide)) (by decide)) (by decide)) (by decide)
  · intro h0
    have e1 : requireCol t "e_warganegara" = .error "e_warganegara" := by
      rw [requireCol, if_neg (fun hc => by rw [hc] at h0; exact Bool.noConfusion h0)]
    simp only [fakNormalize]
    rw [e1]
    rfl

/-- Witness for claim C8 as amended at the concrete table `tNoWarga`:
dashboard normalization leaves the citizenship label of its single row
undefined, while fakulti normalization raises. -/
theorem claim_C8_amended_witness :
    getCell (dashNormRow tNoWarga.cols [("e_40", "1"), ("e_status", "1")])
      "e_warganegara_label" = none
    ∧ fakNormalize tNoWarga = .error "e_warganegara" :=
  ⟨(claim_C8_amended tNoWarga).2.1 (by decide)
      (dashNormRow tNoWarga.cols [("e_40", "1"), ("e_status", "1")]) (by decide),
   (claim_C8_amended tNoWarga).2.2.2.2 (by decide)⟩

end SKPG
